import Mathlib

/-!
Verification of the screenshot-capture module (`src/tools/screen.ts`) of
`total-pc-control`: the filename-rotation counter, the region
scaling/validation logic of `captureRegion`, and the error-wrapping /
cleanup behaviour of `captureScreen` and `captureRegion`.

JavaScript numbers are modelled as rationals (`ℚ`); thrown `Error` values
are modelled by their message strings; the mutable module-level counter is
modelled by explicit state passing; the external collaborators (`screen`,
`fs`) are modelled as an environment record of call results.
-/

namespace TPC

/-! ## Filename rotator (screen.ts lines 7-8, 63-64, 142-143) -/

/-- `const MAX_SCREENSHOTS = 20` (screen.ts line 8). -/
def MAX_SCREENSHOTS : ℕ := 20

/-- `screenshotCounter = (screenshotCounter % MAX_SCREENSHOTS) + 1`
(screen.ts lines 63 and 142): the advance step of the rotator. -/
def nextCounter (c : ℕ) : ℕ := c % MAX_SCREENSHOTS + 1

/-- `String(n).padStart(2, "0")` for the strings produced by `String(n)`:
pad on the left with the character `0` up to length 2. -/
def padStart2 (s : String) : String :=
  if s.length ≥ 2 then s else String.mk (List.replicate (2 - s.length) '0') ++ s

/-- The two-digit sequence label `String(screenshotCounter).padStart(2, "0")`
(screen.ts lines 64 and 143). -/
def seqLabel (c : ℕ) : String := padStart2 (toString c)

/-- The rotated filename `screenshot_${...}` (screen.ts lines 64 and 143). -/
def screenshotFilename (c : ℕ) : String := "screenshot_" ++ seqLabel c

/-! ## Region scaling and validation (screen.ts lines 23-52, 116-140) -/

/-- JavaScript `Math.round`: round to the nearest integer, ties toward
positive infinity, i.e. `⌊x + 1/2⌋`. -/
def mathRound (q : ℚ) : ℤ := ⌊q + 1/2⌋

/-- Modelled from the spec: the caller-supplied `Region` type
(`../types.js`, not part of this module's source): a rectangle
`{left, top, width, height}` whose fields are JavaScript numbers in
logical pixel units. -/
structure Region where
  left : ℚ
  top : ℚ
  width : ℚ
  height : ℚ
deriving DecidableEq, Repr

/-- The `scaledRegion` object (screen.ts lines 116-121): each field is the
corresponding logical field divided by the scale and passed through
`Math.round`, hence an integer. -/
structure ScaledRegion where
  left : ℤ
  top : ℤ
  width : ℤ
  height : ℤ
deriving DecidableEq, Repr

/-- `scaledRegion` as a function of the region and the scale
(screen.ts lines 116-121). -/
def scaleRegion (r : Region) (scale : ℚ) : ScaledRegion where
  left := mathRound (r.left / scale)
  top := mathRound (r.top / scale)
  width := mathRound (r.width / scale)
  height := mathRound (r.height / scale)

/-- The four validation errors thrown by `captureRegion`
(screen.ts lines 123-140), with the data interpolated into the message. -/
inductive RegionError where
  | negativeCoords : RegionError
  | nonPositiveDims : RegionError
  | widthExceeds (regionWidth regionLeft screenWidth : ℚ) : RegionError
  | heightExceeds (regionHeight regionTop screenHeight : ℚ) : RegionError
deriving DecidableEq, Repr

/-- Rendering of a rational as JavaScript renders the numbers appearing in
the error messages (integers print without a fractional part). -/
def ratStr (q : ℚ) : String :=
  if q.den = 1 then toString q.num else toString q.num ++ "/" ++ toString q.den

/-- The message of each thrown validation `Error` (screen.ts lines 124,
127, 130-133, 136-139). -/
def errorMessage : RegionError → String
  | .negativeCoords => "Region coordinates cannot be negative"
  | .nonPositiveDims => "Region dimensions must be positive"
  | .widthExceeds w x sw =>
      "Region width (" ++ ratStr w ++ ") at x=" ++ ratStr x ++
        " exceeds screen width (" ++ ratStr sw ++ "). Try using width <= " ++
        ratStr (sw - x) ++ "."
  | .heightExceeds h y sh =>
      "Region height (" ++ ratStr h ++ ") at y=" ++ ratStr y ++
        " exceeds screen height (" ++ ratStr sh ++ "). Try using height <= " ++
        ratStr (sh - y) ++ "."

/-- `getActualScreenDimensions` (screen.ts lines 23-52) as a function of the
logical dimensions reported by `screen.width()` / `screen.height()` and of
the optional macOS resolution probe (`system_profiler` parse). A successful
probe yields `(actualWidth, actualHeight, actualWidth / baseWidth)`; on all
other paths (not darwin, probe failure, no regex match) the fallback is
`(baseWidth, baseHeight, 1)`. Returns `(width, height, scale)`. -/
def getActualScreenDimensions (baseWidth baseHeight : ℚ)
    (probe : Option (ℚ × ℚ)) : ℚ × ℚ × ℚ :=
  match probe with
  | some (actualWidth, actualHeight) =>
      (actualWidth, actualHeight, actualWidth / baseWidth)
  | none => (baseWidth, baseHeight, 1)

/-- The scaling-and-validation block of `captureRegion`
(screen.ts lines 116-140). `screenWidth`/`screenHeight` are the dimensions
returned by `getActualScreenDimensions` (used only inside the error
messages); the two bounds checks compare against `await screen.width()` and
`await screen.height()` (`baseWidth`/`baseHeight`, lines 129 and 135). -/
def resolveRegion (r : Region)
    (screenWidth screenHeight scale baseWidth baseHeight : ℚ) :
    Except RegionError ScaledRegion :=
  if (scaleRegion r scale).left < 0 ∨ (scaleRegion r scale).top < 0 then
    .error .negativeCoords
  else if (scaleRegion r scale).width ≤ 0 ∨ (scaleRegion r scale).height ≤ 0 then
    .error .nonPositiveDims
  else if (((scaleRegion r scale).left + (scaleRegion r scale).width : ℤ) : ℚ) > baseWidth then
    .error (.widthExceeds r.width r.left screenWidth)
  else if (((scaleRegion r scale).top + (scaleRegion r scale).height : ℤ) : ℚ) > baseHeight then
    .error (.heightExceeds r.height r.top screenHeight)
  else
    .ok (scaleRegion r scale)

/-- `resolveRegion` wired to `getActualScreenDimensions` exactly as
`captureRegion` does (screen.ts lines 110-140): the probe result supplies
`screenWidth`, `screenHeight` and `scale`, the base dimensions supply the
bounds checks. -/
def resolveRegionFull (r : Region) (baseWidth baseHeight : ℚ)
    (probe : Option (ℚ × ℚ)) : Except RegionError ScaledRegion :=
  let d := getActualScreenDimensions baseWidth baseHeight probe
  resolveRegion r d.1 d.2.1 d.2.2 baseWidth baseHeight

example : mathRound (1/2) = 1 := by norm_num [mathRound]
example : mathRound (-(1/2)) = 0 := by norm_num [mathRound]
example : scaleRegion ⟨1000, 0, 100, 100⟩ 2 = ⟨500, 0, 50, 50⟩ := by
  norm_num [scaleRegion, mathRound]
example : resolveRegion ⟨1000, 0, 100, 100⟩ 2000 1000 2 1000 500
    = .ok ⟨500, 0, 50, 50⟩ := by
  norm_num [resolveRegion, scaleRegion, mathRound]
example : (List.range 3).map (fun i => seqLabel (nextCounter^[i+1] 0))
    = ["01", "02", "03"] := by decide

/-! ## Capture orchestration (screen.ts lines 58-97 and 104-179) -/

/-- The capture format parameter (`CaptureFormat` from `../types.js`,
modelled from the spec: format ∈ PNG, JPEG). -/
inductive CaptureFormat where
  | png : CaptureFormat
  | jpeg : CaptureFormat
deriving DecidableEq, Repr

/-- The string interpolated as `image/<format>` in the returned data URI. -/
def formatStr : CaptureFormat → String
  | .png => "png"
  | .jpeg => "jpeg"

/-- `path.basename`: the final path component. -/
def basename (s : String) : String := (s.splitOn "/").getLastD s

/-- The outcome of each awaited external call made during one capture
invocation, modelling the collaborators `fs` and `screen`: a `.error m`
means the call threw an `Error` with message `m`. `cleanupUnlink` is the
outcome of the best-effort `fs.unlink` inside the `catch` block. -/
structure CaptureCalls where
  ensureDir : Except String Unit
  screenW : Except String ℚ
  screenH : Except String ℚ
  capture : Except String String
  readFile : Except String String
  unlink : Except String Unit
  cleanupUnlink : Except String Unit

/-- `try { await fs.unlink(filepath) } catch {}` (screen.ts lines 91-93 and
173-175): the outcome of the cleanup deletion is discarded. -/
def tryIgnore (_r : Except String Unit) : Unit := ()

/-- The success string returned by both capture functions (screen.ts lines
84-86 and 166-168). The buffer read from disk is identified with its
base64 rendering. -/
def successString (fp data : String) (fmt : CaptureFormat) : String :=
  "File saved as " ++ basename fp ++ ". Image data: data:image/" ++
    formatStr fmt ++ ";base64," ++ data

/-- `captureScreen` (screen.ts lines 58-97) with the mutable counter passed
explicitly: returns the settled result together with the counter after the
call. The counter is advanced first (line 63); any thrown message `m` is
re-thrown as `Failed to capture screen: m` (line 95); after the filepath is
known, a failure triggers the ignored cleanup deletion (lines 90-94). -/
def captureScreen (env : CaptureCalls) (fmt : CaptureFormat) (counter : ℕ) :
    Except String String × ℕ :=
  let c := nextCounter counter
  match env.ensureDir with
  | .error m => (.error ("Failed to capture screen: " ++ m), c)
  | .ok _ =>
  match env.screenW with
  | .error m => (.error ("Failed to capture screen: " ++ m), c)
  | .ok _ =>
  match env.screenH with
  | .error m => (.error ("Failed to capture screen: " ++ m), c)
  | .ok _ =>
  match env.capture with
  | .error m => (.error ("Failed to capture screen: " ++ m), c)
  | .ok fp =>
  match env.readFile with
  | .error m =>
      let _ := tryIgnore env.cleanupUnlink
      (.error ("Failed to capture screen: " ++ m), c)
  | .ok data =>
  match env.unlink with
  | .error m =>
      let _ := tryIgnore env.cleanupUnlink
      (.error ("Failed to capture screen: " ++ m), c)
  | .ok _ => (.ok (successString fp data fmt), c)

/-- `captureRegion` (screen.ts lines 104-179) with the mutable counter
passed explicitly. `getActualScreenDimensions` runs first (so a failing
`screen.width()`/`screen.height()` aborts before the counter moves), then
the region is scaled and validated (lines 116-140, counter still
untouched); only then is the counter advanced (line 142) and the capture
pipeline run. Any thrown message `m` — including a validation message — is
re-thrown as `Failed to capture screen region: m` (line 177). -/
def captureRegion (env : CaptureCalls) (probe : Option (ℚ × ℚ))
    (region : Region) (fmt : CaptureFormat) (counter : ℕ) :
    Except String String × ℕ :=
  match env.screenW with
  | .error m => (.error ("Failed to capture screen region: " ++ m), counter)
  | .ok bw =>
  match env.screenH with
  | .error m => (.error ("Failed to capture screen region: " ++ m), counter)
  | .ok bh =>
  match resolveRegionFull region bw bh probe with
  | .error e =>
      (.error ("Failed to capture screen region: " ++ errorMessage e), counter)
  | .ok _ =>
  let c := nextCounter counter
  match env.ensureDir with
  | .error m => (.error ("Failed to capture screen region: " ++ m), c)
  | .ok _ =>
  match env.capture with
  | .error m => (.error ("Failed to capture screen region: " ++ m), c)
  | .ok fp =>
  match env.readFile with
  | .error m =>
      let _ := tryIgnore env.cleanupUnlink
      (.error ("Failed to capture screen region: " ++ m), c)
  | .ok data =>
  match env.unlink with
  | .error m =>
      let _ := tryIgnore env.cleanupUnlink
      (.error ("Failed to capture screen region: " ++ m), c)
  | .ok _ => (.ok (successString fp data fmt), c)

/-- An environment in which every external call succeeds. -/
def envOk : CaptureCalls where
  ensureDir := .ok ()
  screenW := .ok 100
  screenH := .ok 100
  capture := .ok "/tmp/total-pc-control-screenshots/screenshot_01.png"
  readFile := .ok "IMAGEDATA"
  unlink := .ok ()
  cleanupUnlink := .ok ()

/-- `env` with the cleanup-deletion outcome replaced by `u`. -/
def withCleanup (env : CaptureCalls) (u : Except String Unit) : CaptureCalls :=
  { env with cleanupUnlink := u }

/-- `m` is the message of some failed external call of a `captureScreen`
invocation (in source order: `ensureDirectoryExists`, `screen.width`,
`screen.height`, `screen.captureRegion`, `fs.readFile`, `fs.unlink`). -/
def screenCause (env : CaptureCalls) (m : String) : Prop :=
  env.ensureDir = .error m ∨ env.screenW = .error m ∨ env.screenH = .error m ∨
    env.capture = .error m ∨ env.readFile = .error m ∨ env.unlink = .error m

/-- `m` is the message of some failure arising in a `captureRegion`
invocation: a failed external call, or a region-validation error. -/
def regionCause (env : CaptureCalls) (probe : Option (ℚ × ℚ))
    (region : Region) (m : String) : Prop :=
  env.screenW = .error m ∨ env.screenH = .error m ∨
    (∃ bw bh e, env.screenW = .ok bw ∧ env.screenH = .ok bh ∧
      resolveRegionFull region bw bh probe = .error e ∧ m = errorMessage e) ∨
    env.ensureDir = .error m ∨ env.capture = .error m ∨
    env.readFile = .error m ∨ env.unlink = .error m

/-! ## Claims -/

/-- C2: starting from the initial counter state 0, 20 consecutive advances
of the filename rotator produce the two-digit zero-padded sequence numbers
01, 02, ..., 20 in order, the 21st advance yields 01 again, and for every
counter value the next value is (counter mod 20) + 1. -/
theorem rotator_cycle_C2 :
    (List.range 20).map (fun i => seqLabel (nextCounter^[i+1] 0)) =
      ["01", "02", "03", "04", "05", "06", "07", "08", "09", "10",
       "11", "12", "13", "14", "15", "16", "17", "18", "19", "20"] ∧
    seqLabel (nextCounter^[21] 0) = "01" ∧
    ∀ c : ℕ, nextCounter c = c % 20 + 1 :=
  ⟨by decide, by decide, fun _ => rfl⟩

/-- C5: with scale 2, physical screen 2000×1000 (reported logical screen
1000×500), the logical region (1000, 0, 100, 100) resolves to the physical
region (500, 0, 50, 50) and passes all four validation checks. -/
theorem region_example_C5 :
    getActualScreenDimensions 1000 500 (some (2000, 1000)) = (2000, 1000, 2) ∧
    resolveRegionFull ⟨1000, 0, 100, 100⟩ 1000 500 (some (2000, 1000)) =
      .ok ⟨500, 0, 50, 50⟩ ∧
    resolveRegion ⟨1000, 0, 100, 100⟩ 2000 1000 2 1000 500 =
      .ok ⟨500, 0, 50, 50⟩ := by
  refine ⟨?_, ?_, ?_⟩ <;>
    norm_num [getActualScreenDimensions, resolveRegionFull, resolveRegion,
      scaleRegion, mathRound]

/-- C10: each scaled field is Math.round of the corresponding logical field
divided by the scale, where Math.round is round-to-nearest with ties toward
positive infinity (⌊x + 1/2⌋): -1/2 rounds to 0 and 1/2 rounds to 1, and
the same rule is applied uniformly to left, top, width and height. -/
theorem rounding_rule_C10 :
    (∀ q : ℚ, mathRound q = ⌊q + 1/2⌋) ∧
    (∀ q : ℚ, q - 1/2 < (mathRound q : ℚ) ∧ (mathRound q : ℚ) ≤ q + 1/2) ∧
    mathRound (-(1/2)) = 0 ∧
    mathRound (1/2) = 1 ∧
    (∀ (r : Region) (s : ℚ), scaleRegion r s =
      ⟨mathRound (r.left / s), mathRound (r.top / s),
       mathRound (r.width / s), mathRound (r.height / s)⟩) := by
  refine ⟨fun _ => rfl, fun q => ⟨?_, ?_⟩, by norm_num [mathRound],
    by norm_num [mathRound], fun _ _ => rfl⟩
  · have h := Int.lt_floor_add_one (q + 1/2)
    have : (mathRound q : ℚ) = (⌊q + 1/2⌋ : ℚ) := rfl
    rw [this]
    linarith
  · have h := Int.floor_le (q + 1/2)
    have : (mathRound q : ℚ) = (⌊q + 1/2⌋ : ℚ) := rfl
    rw [this]
    linarith

/-- C3 counterexample: the logical region with left = 1/2 (a legal
JavaScript number input) is changed by scaling with scale factor 1: the
scaled left becomes 1, which differs from the input field 1/2. -/
theorem scale_one_not_identity_C3 :
    scaleRegion ⟨1/2, 0, 1, 1⟩ 1 = ⟨1, 0, 1, 1⟩ ∧ ((1 : ℚ) ≠ 1/2) := by
  constructor
  · norm_num [scaleRegion, mathRound]
  · norm_num

/-- C3 (amended): for every logical region whose four fields are integers,
scaling with scale factor 1 leaves the region unchanged. -/
theorem scale_one_identity_C3 :
    ∀ l t w h : ℤ,
      scaleRegion ⟨(l : ℚ), (t : ℚ), (w : ℚ), (h : ℚ)⟩ 1 = ⟨l, t, w, h⟩ := by
  intro l t w h
  have hhalf : (⌊(1 : ℚ)/2⌋ : ℤ) = 0 := by norm_num
  simp [scaleRegion, mathRound, div_one, Int.floor_int_add, hhalf]
  norm_num

/-- C4 counterexample: for the region with left = -1 and the positive scale
factor 2 (physical screen 2000×1000, logical 1000×500), resolution does not
fail at all: Math.round(-1/2) = 0, so the negative-coordinate check passes
and the region resolves successfully. -/
theorem negative_left_C4_counterexample :
    resolveRegion ⟨-1, 0, 2, 2⟩ 2000 1000 2 1000 500 = .ok ⟨0, 0, 1, 1⟩ ∧
    (0 : ℚ) < 2 := by
  constructor
  · norm_num [resolveRegion, scaleRegion, mathRound]
  · norm_num

/-- C4 (amended): for every region whose left field is -1, and every scale
factor s with 0 < s < 2 (in particular s = 1, the only scale on
non-high-density displays) and any values of the other fields and screen
dimensions, resolution fails with the negative-coordinate error. -/
theorem negative_left_C4 :
    (∀ (t w h screenW screenH s bw bh : ℚ), 0 < s → s < 2 →
      resolveRegion ⟨-1, t, w, h⟩ screenW screenH s bw bh =
        .error .negativeCoords) ∧
    errorMessage .negativeCoords = "Region coordinates cannot be negative" := by
  refine ⟨?_, rfl⟩
  intro t w h screenW screenH s bw bh hs0 hs2
  have hhalf : (1 : ℚ)/2 < 1/s := by
    rw [div_lt_div_iff₀ (by norm_num) hs0]
    linarith
  have hneg : (scaleRegion ⟨-1, t, w, h⟩ s).left < 0 := by
    show mathRound ((Region.mk (-1) t w h).left / s) < 0
    refine Int.floor_lt.mpr ?_
    push_cast
    have : (Region.mk (-1) t w h).left / s = -(1/s) := by
      show (-1 : ℚ) / s = -(1/s)
      ring
    rw [this]
    linarith
  unfold resolveRegion
  split_ifs with h1 h2 h3 h4
  · rfl
  all_goals exact absurd (Or.inl hneg) h1

/-- C4 witness: at t = 5, w = 5, h = 5, scale 1, screen 100×100, the
region with left = -1 fails with the negative-coordinate error. -/
theorem negative_left_C4_witness :
    resolveRegion ⟨-1, 5, 5, 5⟩ 100 100 1 100 100 = .error .negativeCoords :=
  negative_left_C4.1 5 5 5 100 100 1 100 100 (by norm_num) (by norm_num)

/-- C8: for every region whose width field is 0 and whose scaled
coordinates are non-negative, resolution fails with the
non-positive-dimension error, for any positive scale factor. -/
theorem zero_width_C8 :
    (∀ (r : Region) (screenW screenH s bw bh : ℚ), 0 < s → r.width = 0 →
      0 ≤ (scaleRegion r s).left → 0 ≤ (scaleRegion r s).top →
      resolveRegion r screenW screenH s bw bh = .error .nonPositiveDims) ∧
    errorMessage .nonPositiveDims = "Region dimensions must be positive" := by
  refine ⟨?_, rfl⟩
  intro r screenW screenH s bw bh hs hw hL hT
  have hW : (scaleRegion r s).width = 0 := by
    show mathRound (r.width / s) = 0
    rw [hw, zero_div]
    norm_num [mathRound]
  unfold resolveRegion
  split_ifs with h1 h2 h3 h4
  · rcases h1 with h | h <;> omega
  · rfl
  · exact absurd (Or.inl hW.le) h2
  · exact absurd (Or.inl hW.le) h2
  · exact absurd (Or.inl hW.le) h2

/-- C8 witness: the region (5, 5, 0, 5) at scale 1 on a 100×100 screen
fails with the non-positive-dimension error. -/
theorem zero_width_C8_witness :
    resolveRegion ⟨5, 5, 0, 5⟩ 100 100 1 100 100 = .error .nonPositiveDims :=
  zero_width_C8.1 ⟨5, 5, 0, 5⟩ 100 100 1 100 100 (by norm_num) rfl
    (by norm_num [scaleRegion, mathRound]) (by norm_num [scaleRegion, mathRound])

/-- C9: validation is applied in a fixed order with fail-fast: the
negative-coordinate check first (its error is reported whatever the other
fields look like), then — when the coordinates are non-negative — the
non-positive-dimension check, then the width bound, then the height bound;
the error reported is always the one from the earliest violated check. -/
theorem check_order_C9 : ∀ (r : Region) (screenW screenH s bw bh : ℚ),
    (((scaleRegion r s).left < 0 ∨ (scaleRegion r s).top < 0) →
      resolveRegion r screenW screenH s bw bh = .error .negativeCoords) ∧
    (0 ≤ (scaleRegion r s).left → 0 ≤ (scaleRegion r s).top →
      ((scaleRegion r s).width ≤ 0 ∨ (scaleRegion r s).height ≤ 0) →
      resolveRegion r screenW screenH s bw bh = .error .nonPositiveDims) ∧
    (0 ≤ (scaleRegion r s).left → 0 ≤ (scaleRegion r s).top →
      0 < (scaleRegion r s).width → 0 < (scaleRegion r s).height →
      bw < (((scaleRegion r s).left + (scaleRegion r s).width : ℤ) : ℚ) →
      resolveRegion r screenW screenH s bw bh =
        .error (.widthExceeds r.width r.left screenW)) ∧
    (0 ≤ (scaleRegion r s).left → 0 ≤ (scaleRegion r s).top →
      0 < (scaleRegion r s).width → 0 < (scaleRegion r s).height →
      (((scaleRegion r s).left + (scaleRegion r s).width : ℤ) : ℚ) ≤ bw →
      bh < (((scaleRegion r s).top + (scaleRegion r s).height : ℤ) : ℚ) →
      resolveRegion r screenW screenH s bw bh =
        .error (.heightExceeds r.height r.top screenH)) := by
  intro r screenW screenH s bw bh
  refine ⟨?_, ?_, ?_, ?_⟩
  · intro h
    unfold resolveRegion
    split_ifs
    rfl
  · intro hL hT h
    unfold resolveRegion
    split_ifs with h1
    · rcases h1 with hh | hh <;> omega
    · rfl
  · intro hL hT hW hH h
    unfold resolveRegion
    split_ifs with h1 h2
    · rcases h1 with hh | hh <;> omega
    · rcases h2 with hh | hh <;> omega
    · rfl
  · intro hL hT hW hH hle h
    unfold resolveRegion
    split_ifs with h1 h2 h3
    · rcases h1 with hh | hh <;> omega
    · rcases h2 with hh | hh <;> omega
    · exact absurd h3 (not_lt.mpr hle)
    · rfl

/-- C9 witness: four regions on a 100×100 screen at scale 1, each violating
the named check and at least one later check, each reporting the earliest
violated check in order. -/
theorem check_order_C9_witness :
    resolveRegion ⟨-1, -1, 0, 0⟩ 100 100 1 100 100 = .error .negativeCoords ∧
    resolveRegion ⟨0, 0, 0, 200⟩ 100 100 1 100 100 = .error .nonPositiveDims ∧
    resolveRegion ⟨50, 0, 200, 200⟩ 100 100 1 100 100 =
      .error (.widthExceeds 200 50 100) ∧
    resolveRegion ⟨0, 50, 100, 200⟩ 100 100 1 100 100 =
      .error (.heightExceeds 200 50 100) := by
  refine ⟨(check_order_C9 ⟨-1, -1, 0, 0⟩ 100 100 1 100 100).1
      (Or.inl (by norm_num [scaleRegion, mathRound])),
    (check_order_C9 ⟨0, 0, 0, 200⟩ 100 100 1 100 100).2.1
      (by norm_num [scaleRegion, mathRound]) (by norm_num [scaleRegion, mathRound])
      (Or.inl (by norm_num [scaleRegion, mathRound])),
    (check_order_C9 ⟨50, 0, 200, 200⟩ 100 100 1 100 100).2.2.1
      (by norm_num [scaleRegion, mathRound]) (by norm_num [scaleRegion, mathRound])
      (by norm_num [scaleRegion, mathRound]) (by norm_num [scaleRegion, mathRound])
      (by norm_num [scaleRegion, mathRound]),
    (check_order_C9 ⟨0, 50, 100, 200⟩ 100 100 1 100 100).2.2.2
      (by norm_num [scaleRegion, mathRound]) (by norm_num [scaleRegion, mathRound])
      (by norm_num [scaleRegion, mathRound]) (by norm_num [scaleRegion, mathRound])
      (by norm_num [scaleRegion, mathRound]) (by norm_num [scaleRegion, mathRound])⟩

/-- C1 counterexample: with scale 2 (physical screen 2000×1000, reported
logical screen 1000×500), the region (1500, 0, 600, 100) scales to
(750, 0, 300, 50), whose right edge 1050 is within the physical width 2000
and whose bottom edge 50 is within the physical height 1000 — yet
resolution fails with the width error, because the code compares against
the logical `screen.width()` value 1000 rather than the physical width. -/
theorem bounds_C1_counterexample :
    getActualScreenDimensions 1000 500 (some (2000, 1000)) = (2000, 1000, 2) ∧
    scaleRegion ⟨1500, 0, 600, 100⟩ 2 = ⟨750, 0, 300, 50⟩ ∧
    ((750 : ℚ) + 300 ≤ 2000 ∧ (0 : ℚ) + 50 ≤ 1000) ∧
    resolveRegionFull ⟨1500, 0, 600, 100⟩ 1000 500 (some (2000, 1000)) =
      .error (.widthExceeds 600 1500 2000) := by
  refine ⟨?_, ?_, by norm_num, ?_⟩ <;>
    norm_num [getActualScreenDimensions, resolveRegionFull, resolveRegion,
      scaleRegion, mathRound]

/-- C1 (amended): after scaling, and given that the coordinate and
dimension checks pass, resolution succeeds if and only if the scaled
rectangle fits within the LOGICAL screen bounds — the values returned by
`screen.width()` and `screen.height()` (the physical dimensions divided by
the scale) — not the physical screen bounds: it fails when scaled left +
scaled width exceeds `screen.width()`, and when scaled top + scaled height
exceeds `screen.height()`; otherwise the bounds checks pass. -/
theorem bounds_C1 : ∀ (r : Region) (screenW screenH s bw bh : ℚ),
    0 ≤ (scaleRegion r s).left → 0 ≤ (scaleRegion r s).top →
    0 < (scaleRegion r s).width → 0 < (scaleRegion r s).height →
    (resolveRegion r screenW screenH s bw bh = .ok (scaleRegion r s) ↔
      ((((scaleRegion r s).left + (scaleRegion r s).width : ℤ) : ℚ) ≤ bw ∧
       (((scaleRegion r s).top + (scaleRegion r s).height : ℤ) : ℚ) ≤ bh)) := by
  intro r screenW screenH s bw bh hL hT hW hH
  unfold resolveRegion
  split_ifs with h1 h2 h3 h4
  · rcases h1 with hh | hh <;> omega
  · rcases h2 with hh | hh <;> omega
  · exact iff_of_false (by simp) (fun hc => absurd h3 (not_lt.mpr hc.1))
  · exact iff_of_false (by simp) (fun hc => absurd h4 (not_lt.mpr hc.2))
  · exact iff_of_true rfl ⟨not_lt.mp h3, not_lt.mp h4⟩

/-- C1 witness: the region (10, 10, 20, 20) at scale 1 on a 100×100
logical screen fits the logical bounds and resolves successfully. -/
theorem bounds_C1_witness :
    resolveRegion ⟨10, 10, 20, 20⟩ 100 100 1 100 100 =
      .ok (scaleRegion ⟨10, 10, 20, 20⟩ 1) :=
  (bounds_C1 ⟨10, 10, 20, 20⟩ 100 100 1 100 100
    (by norm_num [scaleRegion, mathRound]) (by norm_num [scaleRegion, mathRound])
    (by norm_num [scaleRegion, mathRound])
    (by norm_num [scaleRegion, mathRound])).mpr
    ⟨by norm_num [scaleRegion, mathRound], by norm_num [scaleRegion, mathRound]⟩

/-- C6 counterexample: a `captureRegion` call whose region fails validation
(left = -1 at scale 1, all external calls succeeding) leaves the counter at
its old value 0 instead of advancing it to nextCounter 0 = 1: the counter
is advanced only after validation passes. -/
theorem counter_C6_counterexample :
    (captureRegion envOk none ⟨-1, 0, 5, 5⟩ .png 0).2 = 0 ∧
    (captureRegion envOk none ⟨-1, 0, 5, 5⟩ .png 0).1 =
      .error "Failed to capture screen region: Region coordinates cannot be negative" ∧
    nextCounter 0 = 1 := by
  have hres : resolveRegionFull ⟨-1, 0, 5, 5⟩ 100 100 none =
      .error .negativeCoords := by
    norm_num [resolveRegionFull, getActualScreenDimensions, resolveRegion,
      scaleRegion, mathRound]
  refine ⟨?_, ?_, rfl⟩ <;>
    simp [captureRegion, envOk, hres, errorMessage]

/-- C6 (amended): the shared screenshot counter is advanced on every call
to `captureScreen` (before any capture work); in `captureRegion` it is
advanced — before the capture is attempted — exactly on the calls that get
past the screen-dimension query and region validation, and is left
unchanged when the dimension query fails or the region fails validation. -/
theorem counter_C6 (env : CaptureCalls) (probe : Option (ℚ × ℚ))
    (r : Region) (fmt : CaptureFormat) (c : ℕ) :
    ((captureScreen env fmt c).2 = nextCounter c) ∧
    (∀ m, env.screenW = .error m → (captureRegion env probe r fmt c).2 = c) ∧
    (∀ bw m, env.screenW = .ok bw → env.screenH = .error m →
      (captureRegion env probe r fmt c).2 = c) ∧
    (∀ bw bh e, env.screenW = .ok bw → env.screenH = .ok bh →
      resolveRegionFull r bw bh probe = .error e →
      (captureRegion env probe r fmt c).2 = c) ∧
    (∀ bw bh sr, env.screenW = .ok bw → env.screenH = .ok bh →
      resolveRegionFull r bw bh probe = .ok sr →
      (captureRegion env probe r fmt c).2 = nextCounter c) := by
  refine ⟨?_, ?_, ?_, ?_, ?_⟩
  · obtain ⟨ed, sw, sh, cap, rd, ul, cu⟩ := env
    cases ed <;> cases sw <;> cases sh <;> cases cap <;> cases rd <;>
      cases ul <;> rfl
  · intro m hm
    simp [captureRegion, hm]
  · intro bw m h1 h2
    simp [captureRegion, h1, h2]
  · intro bw bh e h1 h2 h3
    simp [captureRegion, h1, h2, h3]
  · intro bw bh sr h1 h2 h3
    rcases hed : env.ensureDir <;> rcases hcap : env.capture <;>
      rcases hrd : env.readFile <;> rcases hul : env.unlink <;>
        simp [captureRegion, h1, h2, h3, hed, hcap, hrd, hul, tryIgnore]

/-- C6 witness: a validating `captureRegion` call advances the counter from
7 to 8, and a `captureScreen` call advances it from 7 to 8 as well. -/
theorem counter_C6_witness :
    (captureScreen envOk .png 7).2 = nextCounter 7 ∧
    (captureRegion envOk none ⟨0, 0, 5, 5⟩ .png 7).2 = nextCounter 7 ∧
    nextCounter 7 = 8 := by
  refine ⟨(counter_C6 envOk none ⟨0, 0, 5, 5⟩ .png 7).1,
    (counter_C6 envOk none ⟨0, 0, 5, 5⟩ .png 7).2.2.2.2 100 100 ⟨0, 0, 5, 5⟩
      rfl rfl ?_, by decide⟩
  norm_num [resolveRegionFull, getActualScreenDimensions, resolveRegion,
    scaleRegion, mathRound]

/-- C7: every failure inside `captureScreen` surfaces as a single error
`Failed to capture screen: <original message>`, every failure inside
`captureRegion` as `Failed to capture screen region: <original message>`
(where the original message is that of some failed external call or, for
`captureRegion`, a validation error); and the outcome of the best-effort
cleanup deletion in the catch block never influences the result. -/
theorem error_wrapping_C7 : ∀ (env : CaptureCalls) (probe : Option (ℚ × ℚ))
    (r : Region) (fmt : CaptureFormat) (c : ℕ) (u : Except String Unit),
    ((∃ v, (captureScreen env fmt c).1 = .ok v) ∨
      (∃ m, screenCause env m ∧
        (captureScreen env fmt c).1 =
          .error ("Failed to capture screen: " ++ m))) ∧
    ((∃ v, (captureRegion env probe r fmt c).1 = .ok v) ∨
      (∃ m, regionCause env probe r m ∧
        (captureRegion env probe r fmt c).1 =
          .error ("Failed to capture screen region: " ++ m))) ∧
    (captureScreen (withCleanup env u) fmt c = captureScreen env fmt c) ∧
    (captureRegion (withCleanup env u) probe r fmt c =
      captureRegion env probe r fmt c) := by
  intro env probe r fmt c u
  refine ⟨?_, ?_, ?_, ?_⟩
  · obtain ⟨ed, sw, sh, cap, rd, ul, cu⟩ := env
    cases ed <;> cases sw <;> cases sh <;> cases cap <;> cases rd <;> cases ul <;>
      first
      | exact Or.inl ⟨_, rfl⟩
      | exact Or.inr ⟨_, Or.inl rfl, rfl⟩
      | exact Or.inr ⟨_, Or.inr (Or.inl rfl), rfl⟩
      | exact Or.inr ⟨_, Or.inr (Or.inr (Or.inl rfl)), rfl⟩
      | exact Or.inr ⟨_, Or.inr (Or.inr (Or.inr (Or.inl rfl))), rfl⟩
      | exact Or.inr ⟨_, Or.inr (Or.inr (Or.inr (Or.inr (Or.inl rfl)))), rfl⟩
      | exact Or.inr ⟨_, Or.inr (Or.inr (Or.inr (Or.inr (Or.inr rfl)))), rfl⟩
  · rcases hsw : env.screenW with m | bw
    · exact Or.inr ⟨m, Or.inl hsw, by simp [captureRegion, hsw]⟩
    rcases hsh : env.screenH with m | bh
    · exact Or.inr ⟨m, Or.inr (Or.inl hsh), by simp [captureRegion, hsw, hsh]⟩
    rcases hres : resolveRegionFull r bw bh probe with e | sr
    · exact Or.inr ⟨errorMessage e,
        Or.inr (Or.inr (Or.inl ⟨bw, bh, e, hsw, hsh, hres, rfl⟩)),
        by simp [captureRegion, hsw, hsh, hres]⟩
    rcases hed : env.ensureDir with m | uu
    · exact Or.inr ⟨m, Or.inr (Or.inr (Or.inr (Or.inl hed))),
        by simp [captureRegion, hsw, hsh, hres, hed]⟩
    rcases hcap : env.capture with m | fp
    · exact Or.inr ⟨m, Or.inr (Or.inr (Or.inr (Or.inr (Or.inl hcap)))),
        by simp [captureRegion, hsw, hsh, hres, hed, hcap]⟩
    rcases hrd : env.readFile with m | data
    · exact Or.inr ⟨m,
        Or.inr (Or.inr (Or.inr (Or.inr (Or.inr (Or.inl hrd))))),
        by simp [captureRegion, hsw, hsh, hres, hed, hcap, hrd, tryIgnore]⟩
    rcases hul : env.unlink with m | uu2
    · exact Or.inr ⟨m,
        Or.inr (Or.inr (Or.inr (Or.inr (Or.inr (Or.inr hul))))),
        by simp [captureRegion, hsw, hsh, hres, hed, hcap, hrd, hul, tryIgnore]⟩
    · exact Or.inl ⟨successString fp data fmt,
        by simp [captureRegion, hsw, hsh, hres, hed, hcap, hrd, hul]⟩
  · obtain ⟨ed, sw, sh, cap, rd, ul, cu⟩ := env
    cases ed <;> cases sw <;> cases sh <;> cases cap <;> cases rd <;> cases ul <;>
      rfl
  · rcases hsw : env.screenW with m | bw
    · simp [captureRegion, withCleanup, hsw]
    rcases hsh : env.screenH with m | bh
    · simp [captureRegion, withCleanup, hsw, hsh]
    rcases hres : resolveRegionFull r bw bh probe with e | sr <;>
      rcases hed : env.ensureDir <;> rcases hcap : env.capture <;>
        rcases hrd : env.readFile <;> rcases hul : env.unlink <;>
          simp [captureRegion, withCleanup, hsw, hsh, hres, hed, hcap, hrd,
            hul, tryIgnore]

end TPC
